import Mathlib

/-!
Verification of `src/watch-faces/complication/progress_face.c` /
`progress_face.h` (a date-range progress watch face).

The C code is shallowly embedded: the packed bit-field calendar value
becomes a structure of `Nat` fields, every assignment into a bit-field is
translated with an explicit `% 2^w` for the field's width, the `int`/
`uint64_t` arithmetic of the Julian-Day conversion is carried out on `Int`
with C's truncating division (`Int.tdiv`) and an explicit `% 2^64` where
the code converts to `uint64_t`, and the external collaborators (the
filesystem, the host clock, `watch_utility_days_in_month`) are modelled at
the interface the spec gives for them.
-/

/-- The packed calendar value `progress_datetime_t` of `progress_face.h`:
bit-fields year:12 (0-4095), month:4 (1-12), day:5 (1-31), hour:5 (0-23),
minute:6 (0-59).  Fields are plain `Nat`s here; every write into a field
in the embedded code applies the bit-field truncation `% 2^w` exactly as
a C assignment to the bit-field would. -/
structure ProgressDatetime where
  year : Nat
  month : Nat
  day : Nat
  hour : Nat
  minute : Nat
deriving DecidableEq, Repr

/-- Embeds `progress_dates_t`: the stored start/end pair. -/
structure ProgressDates where
  start_datetime : ProgressDatetime
  end_datetime : ProgressDatetime
deriving DecidableEq, Repr

/-- Embeds `progress_page_t`. -/
inductive ProgressPage where
  | PROGRESS_PAGE_DISPLAY
  | PROGRESS_PAGE_START
  | PROGRESS_PAGE_END
deriving DecidableEq, Repr

export ProgressPage (PROGRESS_PAGE_DISPLAY PROGRESS_PAGE_START PROGRESS_PAGE_END)

/-- Embeds the `progress_setting_subpage_t` values; the code does `(subpage + 1) % 5`
arithmetic on the enum, so the subpage is embedded as a `Nat`. -/
def PROGRESS_SUBPAGE_YEAR : Nat := 0

def PROGRESS_SUBPAGE_MONTH : Nat := 1

def PROGRESS_SUBPAGE_DAY : Nat := 2

def PROGRESS_SUBPAGE_HOUR : Nat := 3

def PROGRESS_SUBPAGE_MINUTE : Nat := 4

/-- Embeds `progress_state_t`. -/
structure ProgressState where
  current_page : ProgressPage
  current_subpage : Nat
  face_index : Nat
  dates : ProgressDates
  dates_changed : Bool
  quick_cycle : Bool
deriving DecidableEq, Repr

/-- The Julian Day Number computed inside `_progress_datetime_to_minutes`
(progress_face.c lines 38-41), on `Int` with C's truncating division, as
the C `int` arithmetic performs it:

    (1461 * (year + 4800 + (month - 14) / 12)) / 4
      + (367 * (month - 2 - 12 * ((month - 14) / 12))) / 12
      - (3 * ((year + 4900 + (month - 14) / 12) / 100)) / 4
      + day - 32075
-/
def julianDay (dt : ProgressDatetime) : Int :=
  (1461 * ((dt.year : Int) + 4800 + ((dt.month : Int) - 14).tdiv 12)).tdiv 4
    + (367 * ((dt.month : Int) - 2 - 12 * (((dt.month : Int) - 14).tdiv 12))).tdiv 12
    - (3 * (((dt.year : Int) + 4900 + ((dt.month : Int) - 14).tdiv 12).tdiv 100)).tdiv 4
    + (dt.day : Int) - 32075

/-- Embeds `_progress_datetime_to_minutes` (progress_face.c lines 35-45): the
Julian Day Number is stored into a `uint64_t` (conversion `% 2^64`) and
the result is `julian_day * 24 * 60 + hour * 60 + minute` in `uint64_t`
arithmetic. -/
def datetimeToMinutes (dt : ProgressDatetime) : Nat :=
  let julian_day : Nat := ((julianDay dt) % (2 ^ 64 : Int)).toNat
  (julian_day * 24 * 60 + dt.hour * 60 + dt.minute) % 2 ^ 64

/-- The value of a `uint64_t` reinterpreted as C's `int64_t` (the cast in
`_progress_datetime_compare`). -/
def toInt64 (n : Nat) : Int :=
  if n % 2 ^ 64 < 2 ^ 63 then (n % 2 ^ 64 : Nat) else (n % 2 ^ 64 : Nat) - 2 ^ 64

/-- Embeds `_progress_datetime_compare` (progress_face.c lines 48-50):
`(int64_t)minutes(dt2) - (int64_t)minutes(dt1)`. -/
def datetimeCompare (dt1 dt2 : ProgressDatetime) : Int :=
  toInt64 (datetimeToMinutes dt2) - toInt64 (datetimeToMinutes dt1)

/-- The fields of a datetime are within their bit-field widths (always
true of a value living in the packed `progress_datetime_t`). -/
def InBits (dt : ProgressDatetime) : Prop :=
  dt.year < 4096 ∧ dt.month < 16 ∧ dt.day < 32 ∧ dt.hour < 32 ∧ dt.minute < 64

instance (dt : ProgressDatetime) : Decidable (InBits dt) := by
  unfold InBits; infer_instance

/-- Nat-valued form of the Julian Day Number: for month ≤ 2 the helper
term `(month - 14) / 12` of the C formula is `-1`, otherwise `0`; both
branches then only involve nonnegative values. -/
def jdnNat (y m d : Nat) : Nat :=
  if m ≤ 2 then
    1461 * (y + 4799) / 4 + 367 * (m + 10) / 12 - 3 * ((y + 4899) / 100) / 4 + d - 32075
  else
    1461 * (y + 4800) / 4 + 367 * (m - 2) / 12 - 3 * ((y + 4900) / 100) / 4 + d - 32075

theorem natCast_tdiv (a b : Nat) : ((a : Int)).tdiv (b : Int) = ((a / b : Nat) : Int) := rfl

theorem natCast_tdiv4 (a : Nat) : ((a : Int)).tdiv 4 = ((a / 4 : Nat) : Int) := rfl

theorem natCast_tdiv12 (a : Nat) : ((a : Int)).tdiv 12 = ((a / 12 : Nat) : Int) := rfl

theorem natCast_tdiv100 (a : Nat) : ((a : Int)).tdiv 100 = ((a / 100 : Nat) : Int) := rfl

theorem month_helper_eq (m : Nat) (hm : m ≤ 15) :
    ((m : Int) - 14).tdiv 12 = if m ≤ 2 then -1 else 0 := by
  interval_cases m <;> decide

theorem julianDay_eq_jdnNat (dt : ProgressDatetime) (hm : dt.month < 16) :
    julianDay dt = (jdnNat dt.year dt.month dt.day : Int) := by
  have h15 : dt.month ≤ 15 := by omega
  unfold julianDay jdnNat
  rw [month_helper_eq dt.month h15]
  by_cases h2 : dt.month ≤ 2
  · simp only [if_pos h2]
    have e1 : (1461 * ((dt.year : Int) + 4800 + -1)) = ((1461 * (dt.year + 4799) : Nat) : Int) := by
      push_cast; ring
    have e2 : (367 * ((dt.month : Int) - 2 - 12 * (-1))) = ((367 * (dt.month + 10) : Nat) : Int) := by
      push_cast; ring
    have e3 : ((dt.year : Int) + 4900 + -1) = (((dt.year + 4899 : Nat)) : Int) := by
      push_cast; ring
    rw [e1, e2, e3, natCast_tdiv4, natCast_tdiv12, natCast_tdiv100]
    have e4 : (3 * ((((dt.year + 4899) / 100 : Nat)) : Int))
        = ((3 * ((dt.year + 4899) / 100) : Nat) : Int) := by push_cast; ring
    rw [e4, natCast_tdiv4]
    set t1 := 1461 * (dt.year + 4799) / 4 with ht1
    set t2 := 367 * (dt.month + 10) / 12 with ht2
    set t3 := 3 * ((dt.year + 4899) / 100) / 4 with ht3
    have hb : t3 + 32075 ≤ t1 := by rw [ht1, ht3]; omega
    omega
  · simp only [if_neg h2]
    have e1 : (1461 * ((dt.year : Int) + 4800 + 0)) = ((1461 * (dt.year + 4800) : Nat) : Int) := by
      push_cast; ring
    have e2 : (367 * ((dt.month : Int) - 2 - 12 * 0)) = ((367 * (dt.month - 2) : Nat) : Int) := by
      have : (2 : Int) ≤ (dt.month : Int) := by exact_mod_cast by omega
      push_cast [Nat.cast_sub (by omega : 2 ≤ dt.month)]
      ring
    have e3 : ((dt.year : Int) + 4900 + 0) = (((dt.year + 4900 : Nat)) : Int) := by
      push_cast; ring
    rw [e1, e2, e3, natCast_tdiv4, natCast_tdiv12, natCast_tdiv100]
    have e4 : (3 * ((((dt.year + 4900) / 100 : Nat)) : Int))
        = ((3 * ((dt.year + 4900) / 100) : Nat) : Int) := by push_cast; ring
    rw [e4, natCast_tdiv4]
    set t1 := 1461 * (dt.year + 4800) / 4 with ht1
    set t2 := 367 * (dt.month - 2) / 12 with ht2
    set t3 := 3 * ((dt.year + 4900) / 100) / 4 with ht3
    have hb : t3 + 32075 ≤ t1 := by rw [ht1, ht3]; omega
    omega

theorem jdnNat_le (y m d : Nat) (hy : y ≤ 4095) (hm : m ≤ 15) (hd : d ≤ 31) :
    jdnNat y m d ≤ 3249327 := by
  unfold jdnNat
  split <;> omega

theorem jdnNat_ge (y m d : Nat) : 1700000 ≤ jdnNat y m d := by
  unfold jdnNat
  split <;> omega

/-- For in-range fields the `uint64_t` wrap-arounds in
`_progress_datetime_to_minutes` never fire. -/
theorem datetimeToMinutes_eq (dt : ProgressDatetime) (h : InBits dt) :
    datetimeToMinutes dt = jdnNat dt.year dt.month dt.day * 1440 + dt.hour * 60 + dt.minute := by
  obtain ⟨hy, hm, hd, hh, hmin⟩ := h
  unfold datetimeToMinutes
  rw [julianDay_eq_jdnNat dt hm]
  have hle : jdnNat dt.year dt.month dt.day ≤ 3249327 :=
    jdnNat_le dt.year dt.month dt.day (by omega) (by omega) (by omega)
  have h1 : ((jdnNat dt.year dt.month dt.day : Int)) % (2 ^ 64 : Int)
      = (jdnNat dt.year dt.month dt.day : Int) := by
    apply Int.emod_eq_of_lt
    · exact_mod_cast Nat.zero_le _
    · exact_mod_cast by omega
  rw [h1]
  simp only [Int.toNat_natCast]
  omega

theorem datetimeToMinutes_lt (dt : ProgressDatetime) (h : InBits dt) :
    datetimeToMinutes dt < 2 ^ 33 := by
  rw [datetimeToMinutes_eq dt h]
  obtain ⟨hy, hm, hd, hh, hmin⟩ := h
  have hle : jdnNat dt.year dt.month dt.day ≤ 3249327 :=
    jdnNat_le dt.year dt.month dt.day (by omega) (by omega) (by omega)
  omega

theorem toInt64_of_lt (n : Nat) (h : n < 2 ^ 63) : toInt64 n = (n : Int) := by
  unfold toInt64
  rw [Nat.mod_eq_of_lt (by omega)]
  simp only [if_pos h]

/-- Modelled from the spec: the Gregorian leap-year rule underlying the
external collaborator `daysInMonth(month, year)` of spec section 6 (the
source's `watch_utility_days_in_month`, which is not part of this
repository's sources). -/
def isLeapYear (y : Nat) : Bool :=
  (y % 4 == 0 && y % 100 != 0) || y % 400 == 0

/-- Modelled from the spec: `daysInMonth(month, year) -> integer`, the
number of days of the given month in the given year (spec sections 4.3
and 6); implements the source's external `watch_utility_days_in_month`. -/
def daysInMonth (month year : Nat) : Nat :=
  match month with
  | 1 => 31
  | 2 => if isLeapYear year then 29 else 28
  | 3 => 31
  | 4 => 30
  | 5 => 31
  | 6 => 30
  | 7 => 31
  | 8 => 31
  | 9 => 30
  | 10 => 31
  | 11 => 30
  | 12 => 31
  | _ => 0

theorem daysInMonth_pos (m y : Nat) (h1 : 1 ≤ m) (h2 : m ≤ 12) :
    1 ≤ daysInMonth m y := by
  interval_cases m <;> simp only [daysInMonth] <;> first | omega | (split <;> omega)

theorem daysInMonth_le (m y : Nat) : daysInMonth m y ≤ 31 := by
  unfold daysInMonth
  split <;> first | omega | (split <;> omega)

/-- The day argument enters `jdnNat` additively. -/
theorem jdnNat_day (y m d : Nat) : jdnNat y m d = jdnNat y m 0 + d := by
  unfold jdnNat
  split <;> omega

theorem jdnNat_eq_le2 (y m d : Nat) (h : m ≤ 2) :
    jdnNat y m d
      = 1461 * (y + 4799) / 4 + 367 * (m + 10) / 12 - 3 * ((y + 4899) / 100) / 4 + d - 32075 := by
  unfold jdnNat
  rw [if_pos h]

theorem jdnNat_eq_gt2 (y m d : Nat) (h : ¬m ≤ 2) :
    jdnNat y m d
      = 1461 * (y + 4800) / 4 + 367 * (m - 2) / 12 - 3 * ((y + 4900) / 100) / 4 + d - 32075 := by
  unfold jdnNat
  rw [if_neg h]

theorem quarter_step (y : Nat) :
    1461 * (y + 4800) / 4 = 1461 * (y + 4799) / 4 + (if y % 4 = 0 then 366 else 365) := by
  obtain ⟨k, s, hs, rfl⟩ : ∃ k s, s < 4 ∧ y = 4 * k + s :=
    ⟨y / 4, y % 4, Nat.mod_lt _ (by omega), by omega⟩
  interval_cases s
  · rw [if_pos (by omega)]; omega
  · rw [if_neg (by omega)]; omega
  · rw [if_neg (by omega)]; omega
  · rw [if_neg (by omega)]; omega

theorem century_quarter_step (c : Nat) :
    3 * (c + 49) / 4 = 3 * (c + 48) / 4 + (if c % 4 = 0 then 0 else 1) := by
  obtain ⟨p, s, hs, rfl⟩ : ∃ p s, s < 4 ∧ c = 4 * p + s :=
    ⟨c / 4, c % 4, Nat.mod_lt _ (by omega), by omega⟩
  interval_cases s
  · rw [if_pos (by omega)]; omega
  · rw [if_neg (by omega)]; omega
  · rw [if_neg (by omega)]; omega
  · rw [if_neg (by omega)]; omega

theorem century_mod_four (y : Nat) (h : y % 100 = 0) : (y / 100) % 4 = 0 ↔ y % 400 = 0 := by
  obtain ⟨q, rfl⟩ : ∃ q, y = 100 * q := ⟨y / 100, by omega⟩
  have hq : 100 * q / 100 = q := by omega
  rw [hq]
  omega

/-- Advancing from March 1 back to February 1 differs by exactly the
Gregorian length of February: the heart of the leap-year correctness of
the Julian-Day formula. -/
theorem jdnNat_feb_step (y : Nat) : jdnNat y 3 0 = jdnNat y 2 0 + daysInMonth 2 y := by
  have hd2 : daysInMonth 2 y = if isLeapYear y then 29 else 28 := rfl
  rw [jdnNat_eq_gt2 y 3 0 (by omega), jdnNat_eq_le2 y 2 0 (by omega), hd2]
  have h100 : (y + 4900) / 100 = y / 100 + 49 := by omega
  have h99 : (y + 4899) / 100 = if y % 100 = 0 then y / 100 + 48 else y / 100 + 49 := by
    split <;> omega
  rw [h100, h99, apply_ite (fun t : Nat => 3 * t / 4), century_quarter_step (y / 100),
    quarter_step y]
  have hiff : isLeapYear y = true ↔ ((y % 4 = 0 ∧ y % 100 ≠ 0) ∨ y % 400 = 0) := by
    simp [isLeapYear]
  by_cases hL : isLeapYear y = true
  · rw [if_pos hL, hiff] at *
    by_cases hc : y % 100 = 0
    · have h5 := century_mod_four y hc
      have hq : (y / 100) % 4 = 0 := by
        rw [h5]
        rcases hL with ⟨_, hne⟩ | h400
        · exact absurd hc hne
        · exact h400
      rw [if_pos hc, if_pos hq, if_pos (by omega : y % 4 = 0)]
      omega
    · have h4 : y % 4 = 0 := by
        rcases hL with ⟨h4, _⟩ | h400
        · exact h4
        · omega
      rw [if_neg hc, if_pos h4]
      by_cases hq : (y / 100) % 4 = 0
      · rw [if_pos hq]; omega
      · rw [if_neg hq]; omega
  · rw [if_neg hL]
    rw [hiff] at hL
    by_cases hc : y % 100 = 0
    · have h5 := century_mod_four y hc
      have hq : ¬(y / 100) % 4 = 0 := by
        rw [h5]
        intro h400
        exact hL (Or.inr h400)
      rw [if_pos hc, if_neg hq, if_pos (by omega : y % 4 = 0)]
      omega
    · have h4 : ¬y % 4 = 0 := by
        intro h4
        exact hL (Or.inl ⟨h4, hc⟩)
      rw [if_neg hc, if_neg h4]
      by_cases hq : (y / 100) % 4 = 0
      · rw [if_pos hq]; omega
      · rw [if_neg hq]; omega

/-- Advancing one month advances the Julian Day Number by exactly the
number of days of that month. -/
theorem jdnNat_month_step (y m : Nat) (h1 : 1 ≤ m) (h2 : m ≤ 11) :
    jdnNat y (m + 1) 0 = jdnNat y m 0 + daysInMonth m y := by
  interval_cases m
  · have hd : daysInMonth 1 y = 31 := rfl
    rw [jdnNat_eq_le2 y _ 0 (by omega), jdnNat_eq_le2 y _ 0 (by omega), hd]
    omega
  · simpa using jdnNat_feb_step y
  · have hd : daysInMonth 3 y = 31 := rfl
    rw [jdnNat_eq_gt2 y _ 0 (by omega), jdnNat_eq_gt2 y _ 0 (by omega), hd]
    omega
  · have hd : daysInMonth 4 y = 30 := rfl
    rw [jdnNat_eq_gt2 y _ 0 (by omega), jdnNat_eq_gt2 y _ 0 (by omega), hd]
    omega
  · have hd : daysInMonth 5 y = 31 := rfl
    rw [jdnNat_eq_gt2 y _ 0 (by omega), jdnNat_eq_gt2 y _ 0 (by omega), hd]
    omega
  · have hd : daysInMonth 6 y = 30 := rfl
    rw [jdnNat_eq_gt2 y _ 0 (by omega), jdnNat_eq_gt2 y _ 0 (by omega), hd]
    omega
  · have hd : daysInMonth 7 y = 31 := rfl
    rw [jdnNat_eq_gt2 y _ 0 (by omega), jdnNat_eq_gt2 y _ 0 (by omega), hd]
    omega
  · have hd : daysInMonth 8 y = 31 := rfl
    rw [jdnNat_eq_gt2 y _ 0 (by omega), jdnNat_eq_gt2 y _ 0 (by omega), hd]
    omega
  · have hd : daysInMonth 9 y = 30 := rfl
    rw [jdnNat_eq_gt2 y _ 0 (by omega), jdnNat_eq_gt2 y _ 0 (by omega), hd]
    omega
  · have hd : daysInMonth 10 y = 31 := rfl
    rw [jdnNat_eq_gt2 y _ 0 (by omega), jdnNat_eq_gt2 y _ 0 (by omega), hd]
    omega
  · have hd : daysInMonth 11 y = 30 := rfl
    rw [jdnNat_eq_gt2 y _ 0 (by omega), jdnNat_eq_gt2 y _ 0 (by omega), hd]
    omega

/-- Dec 31 of year y and Jan 1 of year y+1 are adjacent Julian days. -/
theorem jdnNat_year_step (y : Nat) : jdnNat (y + 1) 1 0 = jdnNat y 12 0 + 31 := by
  rw [jdnNat_eq_le2 (y + 1) 1 0 (by omega), jdnNat_eq_gt2 y 12 0 (by omega),
    (by omega : y + 1 + 4799 = y + 4800), (by omega : y + 1 + 4899 = y + 4900)]
  omega

theorem jdnNat_month_le (y m1 m2 : Nat) (h1 : 1 ≤ m1) (h2 : m1 < m2) (h3 : m2 ≤ 12) :
    jdnNat y m1 0 + daysInMonth m1 y ≤ jdnNat y m2 0 := by
  induction m2, h2 using Nat.le_induction with
  | base =>
    simp only [Nat.succ_eq_add_one]
    have hstep := jdnNat_month_step y m1 h1 (by omega)
    omega
  | succ n hn ih =>
    have hstep := jdnNat_month_step y n (by omega) (by omega)
    have hih := ih (by omega)
    omega

theorem jdnNat_year_ub (y m d : Nat) (hm1 : 1 ≤ m) (hm2 : m ≤ 12)
    (hd : d ≤ daysInMonth m y) : jdnNat y m d ≤ jdnNat y 12 0 + 31 := by
  have hday := jdnNat_day y m d
  rcases Nat.eq_or_lt_of_le hm2 with heq | hlt
  · have h31 : daysInMonth 12 y = 31 := rfl
    subst heq
    omega
  · have hle := jdnNat_month_le y m 12 hm1 hlt (by omega)
    omega

theorem jdnNat_year_lb (y m d : Nat) (hm1 : 1 ≤ m) (hm2 : m ≤ 12) (hd : 1 ≤ d) :
    jdnNat y 1 0 + 1 ≤ jdnNat y m d := by
  have hday := jdnNat_day y m d
  rcases Nat.eq_or_lt_of_le hm1 with heq | hlt
  · rw [← heq] at hday ⊢
    omega
  · have hle := jdnNat_month_le y 1 m (by omega) hlt hm2
    have h31 : daysInMonth 1 y = 31 := rfl
    omega

theorem jdnNat_year_lt (y1 y2 : Nat) (h : y1 < y2) :
    jdnNat y1 12 0 + 31 < jdnNat y2 1 0 + 1 := by
  induction y2, h using Nat.le_induction with
  | base =>
    simp only [Nat.succ_eq_add_one]
    have hstep := jdnNat_year_step y1
    omega
  | succ n hn ih =>
    have hstep := jdnNat_year_step n
    have hle := jdnNat_month_le n 1 12 (by omega) (by omega) (by omega)
    have h31 : daysInMonth 1 n = 31 := rfl
    omega

/-- Strict monotonicity of the Julian Day Number in calendar-date order. -/
theorem jdnNat_date_lt (y1 m1 d1 y2 m2 d2 : Nat)
    (hm1 : 1 ≤ m1) (hm1' : m1 ≤ 12) (hd1 : 1 ≤ d1) (hd1' : d1 ≤ daysInMonth m1 y1)
    (hm2 : 1 ≤ m2) (hm2' : m2 ≤ 12) (hd2 : 1 ≤ d2) (hd2' : d2 ≤ daysInMonth m2 y2)
    (hlt : y1 < y2 ∨ (y1 = y2 ∧ (m1 < m2 ∨ (m1 = m2 ∧ d1 < d2)))) :
    jdnNat y1 m1 d1 < jdnNat y2 m2 d2 := by
  rcases hlt with hy | ⟨hy, hm | ⟨hm, hd⟩⟩
  · have hub := jdnNat_year_ub y1 m1 d1 hm1 hm1' hd1'
    have hyy := jdnNat_year_lt y1 y2 hy
    have hlb := jdnNat_year_lb y2 m2 d2 hm2 hm2' hd2
    omega
  · subst hy
    have hle := jdnNat_month_le y1 m1 m2 hm1 hm hm2'
    have ha := jdnNat_day y1 m1 d1
    have hb := jdnNat_day y1 m2 d2
    omega
  · subst hy; subst hm
    have ha := jdnNat_day y1 m1 d1
    have hb := jdnNat_day y1 m1 d2
    omega

/-- A calendar-valid datetime: what the spec calls a "valid calendar
value" (fields in their documented semantic ranges, day within the
month's Gregorian length). -/
def ValidDatetime (dt : ProgressDatetime) : Prop :=
  dt.year ≤ 4095 ∧ 1 ≤ dt.month ∧ dt.month ≤ 12 ∧ 1 ≤ dt.day ∧
    dt.day ≤ daysInMonth dt.month dt.year ∧ dt.hour ≤ 23 ∧ dt.minute ≤ 59

instance (dt : ProgressDatetime) : Decidable (ValidDatetime dt) := by
  unfold ValidDatetime; infer_instance

theorem ValidDatetime.inBits (dt : ProgressDatetime) (h : ValidDatetime dt) : InBits dt := by
  obtain ⟨h1, h2, h3, h4, h5, h6, h7⟩ := h
  have := daysInMonth_le dt.month dt.year
  exact ⟨by omega, by omega, by omega, by omega, by omega⟩

/-- Calendar chronology: lexicographic order on
(year, month, day, hour, minute). -/
def dtLt (a b : ProgressDatetime) : Prop :=
  a.year < b.year ∨ (a.year = b.year ∧ (a.month < b.month ∨ (a.month = b.month ∧
    (a.day < b.day ∨ (a.day = b.day ∧ (a.hour < b.hour ∨ (a.hour = b.hour ∧
      a.minute < b.minute)))))))

instance (a b : ProgressDatetime) : Decidable (dtLt a b) := by
  unfold dtLt; infer_instance

theorem datetimeToMinutes_lt_of_dtLt (a b : ProgressDatetime)
    (ha : ValidDatetime a) (hb : ValidDatetime b) (h : dtLt a b) :
    datetimeToMinutes a < datetimeToMinutes b := by
  rw [datetimeToMinutes_eq a (ValidDatetime.inBits a ha),
    datetimeToMinutes_eq b (ValidDatetime.inBits b hb)]
  obtain ⟨ha1, ha2, ha3, ha4, ha5, ha6, ha7⟩ := ha
  obtain ⟨hb1, hb2, hb3, hb4, hb5, hb6, hb7⟩ := hb
  rcases h with hy | ⟨hy, hm | ⟨hm, hd | ⟨hd, hrest⟩⟩⟩
  · have hlt := jdnNat_date_lt a.year a.month a.day b.year b.month b.day
      ha2 ha3 ha4 ha5 hb2 hb3 hb4 hb5 (Or.inl hy)
    omega
  · have hlt := jdnNat_date_lt a.year a.month a.day b.year b.month b.day
      ha2 ha3 ha4 ha5 hb2 hb3 hb4 hb5 (Or.inr ⟨hy, Or.inl hm⟩)
    omega
  · have hlt := jdnNat_date_lt a.year a.month a.day b.year b.month b.day
      ha2 ha3 ha4 ha5 hb2 hb3 hb4 hb5 (Or.inr ⟨hy, Or.inr ⟨hm, hd⟩⟩)
    omega
  · have heq : jdnNat a.year a.month a.day = jdnNat b.year b.month b.day := by
      rw [hy, hm, hd]
    omega

theorem dtLt_total (a b : ProgressDatetime) : dtLt a b ∨ a = b ∨ dtLt b a := by
  have he : a = b ↔ (a.year = b.year ∧ a.month = b.month ∧ a.day = b.day ∧
      a.hour = b.hour ∧ a.minute = b.minute) := by
    constructor
    · intro h; subst h; exact ⟨rfl, rfl, rfl, rfl, rfl⟩
    · rintro ⟨h1, h2, h3, h4, h5⟩
      cases a; cases b; simp_all
  rw [he]
  unfold dtLt
  omega

/-- C5: for valid calendar values, the comparison defined by the
difference of linear minutes (`_progress_datetime_compare`) is a strict
total order consistent with calendar chronology: `datetimeCompare a b` is
positive exactly when `a` chronologically precedes `b` and zero exactly
when `a = b` (so `_progress_datetime_to_minutes` is strictly monotonic in
calendar order); moreover Dec 31 23:59 of year y maps to exactly one
minute before Jan 1 00:00 of year y+1. -/
theorem datetime_compare_strict_total_order (a b : ProgressDatetime)
    (ha : ValidDatetime a) (hb : ValidDatetime b) :
    (0 < datetimeCompare a b ↔ dtLt a b) ∧
    (datetimeCompare a b = 0 ↔ a = b) ∧
    (∀ y : Nat, y ≤ 4094 →
      datetimeToMinutes ⟨y, 12, 31, 23, 59⟩ + 1 = datetimeToMinutes ⟨y + 1, 1, 1, 0, 0⟩) := by
  have hca := datetimeToMinutes_lt a (ValidDatetime.inBits a ha)
  have hcb := datetimeToMinutes_lt b (ValidDatetime.inBits b hb)
  have hc : datetimeCompare a b
      = (datetimeToMinutes b : Int) - (datetimeToMinutes a : Int) := by
    unfold datetimeCompare
    rw [toInt64_of_lt _ (by omega), toInt64_of_lt _ (by omega)]
  refine ⟨⟨?_, ?_⟩, ⟨?_, ?_⟩, ?_⟩
  · rw [hc]
    intro h
    rcases dtLt_total a b with hl | heq | hg
    · exact hl
    · subst heq; omega
    · have := datetimeToMinutes_lt_of_dtLt b a hb ha hg
      omega
  · intro h
    have := datetimeToMinutes_lt_of_dtLt a b ha hb h
    rw [hc]
    omega
  · rw [hc]
    intro h
    rcases dtLt_total a b with hl | heq | hg
    · have := datetimeToMinutes_lt_of_dtLt a b ha hb hl
      omega
    · exact heq
    · have := datetimeToMinutes_lt_of_dtLt b a hb ha hg
      omega
  · intro h
    subst h
    rw [hc]
    omega
  · intro y hy
    have h1 : InBits ⟨y, 12, 31, 23, 59⟩ := by
      unfold InBits
      dsimp only
      omega
    have h2 : InBits ⟨y + 1, 1, 1, 0, 0⟩ := by
      unfold InBits
      dsimp only
      omega
    rw [datetimeToMinutes_eq _ h1, datetimeToMinutes_eq _ h2]
    dsimp only
    have hstep := jdnNat_year_step y
    have hday1 := jdnNat_day y 12 31
    have hday2 := jdnNat_day (y + 1) 1 1
    omega

theorem datetime_compare_strict_total_order_witness :
    ValidDatetime ⟨2025, 12, 31, 23, 59⟩ ∧ ValidDatetime ⟨2026, 1, 1, 0, 0⟩ ∧
    0 < datetimeCompare ⟨2025, 12, 31, 23, 59⟩ ⟨2026, 1, 1, 0, 0⟩ :=
  ⟨by decide, by decide,
    (datetime_compare_strict_total_order ⟨2025, 12, 31, 23, 59⟩ ⟨2026, 1, 1, 0, 0⟩
      (by decide) (by decide)).1.mpr (by decide)⟩

/-- The progress computation of `_progress_face_update_display`
(progress_face.c lines 119-138): the value `percentage_x10000` as a
function of the stored dates and the current datetime (the display
formatting that follows it in the C is cosmetic and not modelled).  The
`uint64_t` product is reduced `% 2^64`; the two subtractions sit in the
branch where the guards guarantee they do not underflow. -/
def percentageX10000 (dates : ProgressDates) (current_dt : ProgressDatetime) : Nat :=
  let start_minutes := datetimeToMinutes dates.start_datetime
  let end_minutes := datetimeToMinutes dates.end_datetime
  let current_minutes := datetimeToMinutes current_dt
  if current_minutes ≤ start_minutes then 0
  else if current_minutes ≥ end_minutes then 1000000
  else
    let progress := (current_minutes - start_minutes) * 1000000 % 2 ^ 64
    let duration := end_minutes - start_minutes
    if duration > 0 then progress / duration else 1000000

/-- The spec's reference definition of `computeProgressFixedPoint`
(spec section 4.2), written from the spec's words over exact unbounded
integer arithmetic, to be compared against `percentageX10000`. -/
def computeProgressFixedPointSpec (startM endM nowM : Nat) : Nat :=
  if nowM ≤ startM then 0
  else if nowM ≥ endM then 1000000
  else (nowM - startM) * 1000000 / (endM - startM)

theorem percentageX10000_eq_spec (dates : ProgressDates) (now : ProgressDatetime)
    (hn : InBits now) :
    percentageX10000 dates now
      = computeProgressFixedPointSpec (datetimeToMinutes dates.start_datetime)
          (datetimeToMinutes dates.end_datetime) (datetimeToMinutes now) := by
  have hnB := datetimeToMinutes_lt now hn
  unfold percentageX10000 computeProgressFixedPointSpec
  dsimp only
  set sM := datetimeToMinutes dates.start_datetime with hsM
  set eM := datetimeToMinutes dates.end_datetime with heM
  set nM := datetimeToMinutes now with hnM
  by_cases h1 : nM ≤ sM
  · rw [if_pos h1, if_pos h1]
  · rw [if_neg h1, if_neg h1]
    by_cases h2 : nM ≥ eM
    · rw [if_pos h2, if_pos h2]
    · rw [if_neg h2, if_neg h2, if_pos (by omega : eM - sM > 0),
        Nat.mod_eq_of_lt (by omega : (nM - sM) * 1000000 < 2 ^ 64)]

theorem computeProgressFixedPointSpec_le (s e n : Nat) (hse : s < e) :
    computeProgressFixedPointSpec s e n ≤ 1000000 := by
  unfold computeProgressFixedPointSpec
  by_cases h1 : n ≤ s
  · rw [if_pos h1]
    omega
  · rw [if_neg h1]
    by_cases h2 : n ≥ e
    · rw [if_pos h2]
    · rw [if_neg h2]
      have hle : (n - s) * 1000000 ≤ (e - s) * 1000000 :=
        Nat.mul_le_mul_right _ (by omega)
      calc (n - s) * 1000000 / (e - s) ≤ (e - s) * 1000000 / (e - s) :=
            Nat.div_le_div_right hle
        _ = 1000000 := by
            rw [Nat.mul_comm]
            exact Nat.mul_div_cancel _ (by omega)

theorem computeProgressFixedPointSpec_mono (s e n1 n2 : Nat) (hse : s < e) (h : n1 ≤ n2) :
    computeProgressFixedPointSpec s e n1 ≤ computeProgressFixedPointSpec s e n2 := by
  by_cases h1 : n1 ≤ s
  · unfold computeProgressFixedPointSpec
    rw [if_pos h1]
    omega
  · by_cases h2 : n1 ≥ e
    · have h2' : n2 ≥ e := by omega
      unfold computeProgressFixedPointSpec
      rw [if_neg h1, if_pos h2, if_neg (by omega), if_pos h2']
    · by_cases h3 : n2 ≥ e
      · have hb := computeProgressFixedPointSpec_le s e n1 hse
        unfold computeProgressFixedPointSpec
        rw [if_neg h1, if_neg h2, if_neg (by omega : ¬n2 ≤ s), if_pos h3]
        unfold computeProgressFixedPointSpec at hb
        rw [if_neg h1, if_neg h2] at hb
        exact hb
      · unfold computeProgressFixedPointSpec
        rw [if_neg h1, if_neg h2, if_neg (by omega), if_neg h3]
        exact Nat.div_le_div_right (Nat.mul_le_mul_right _ (by omega))

/-- C2: for in-range datetimes with start strictly before end in linear
minutes, `percentage_x10000` equals the spec's exact piecewise reference
`computeProgressFixedPointSpec` (the `uint64_t` arithmetic never
overflows), and in particular the result is exactly 0 when now = start
and exactly 1,000,000 when now = end. -/
theorem progress_matches_spec (dates : ProgressDates) (now : ProgressDatetime)
    (hn : InBits now)
    (hlt : datetimeToMinutes dates.start_datetime < datetimeToMinutes dates.end_datetime) :
    percentageX10000 dates now
      = computeProgressFixedPointSpec (datetimeToMinutes dates.start_datetime)
          (datetimeToMinutes dates.end_datetime) (datetimeToMinutes now)
    ∧ (datetimeToMinutes now = datetimeToMinutes dates.start_datetime →
        percentageX10000 dates now = 0)
    ∧ (datetimeToMinutes now = datetimeToMinutes dates.end_datetime →
        percentageX10000 dates now = 1000000) := by
  have hmain := percentageX10000_eq_spec dates now hn
  refine ⟨hmain, ?_, ?_⟩
  · intro h
    rw [hmain]
    unfold computeProgressFixedPointSpec
    rw [if_pos (by omega)]
  · intro h
    rw [hmain]
    unfold computeProgressFixedPointSpec
    rw [if_neg (by omega), if_pos (by omega)]

theorem progress_matches_spec_witness :
    percentageX10000 ⟨⟨2025, 1, 1, 0, 0⟩, ⟨2025, 12, 31, 23, 59⟩⟩ ⟨2025, 7, 2, 12, 0⟩
      = computeProgressFixedPointSpec (datetimeToMinutes ⟨2025, 1, 1, 0, 0⟩)
          (datetimeToMinutes ⟨2025, 12, 31, 23, 59⟩) (datetimeToMinutes ⟨2025, 7, 2, 12, 0⟩) :=
  (progress_matches_spec ⟨⟨2025, 1, 1, 0, 0⟩, ⟨2025, 12, 31, 23, 59⟩⟩ ⟨2025, 7, 2, 12, 0⟩
    (by decide) (by decide)).1

/-- C3: for a fixed in-range pair with start strictly before end in
linear minutes, `percentage_x10000` is monotonically non-decreasing in
the current time and always lies in [0, 1,000,000]. -/
theorem progress_monotone_bounded (dates : ProgressDates) (now1 now2 : ProgressDatetime)
    (hn1 : InBits now1) (hn2 : InBits now2)
    (hlt : datetimeToMinutes dates.start_datetime < datetimeToMinutes dates.end_datetime)
    (h12 : datetimeToMinutes now1 ≤ datetimeToMinutes now2) :
    percentageX10000 dates now1 ≤ percentageX10000 dates now2
    ∧ percentageX10000 dates now1 ≤ 1000000 := by
  rw [percentageX10000_eq_spec dates now1 hn1, percentageX10000_eq_spec dates now2 hn2]
  exact ⟨computeProgressFixedPointSpec_mono _ _ _ _ hlt h12,
    computeProgressFixedPointSpec_le _ _ _ hlt⟩

theorem progress_monotone_bounded_witness :
    percentageX10000 ⟨⟨2025, 1, 1, 0, 0⟩, ⟨2025, 12, 31, 23, 59⟩⟩ ⟨2025, 7, 2, 12, 0⟩
      ≤ percentageX10000 ⟨⟨2025, 1, 1, 0, 0⟩, ⟨2025, 12, 31, 23, 59⟩⟩ ⟨2025, 9, 1, 0, 0⟩
    ∧ percentageX10000 ⟨⟨2025, 1, 1, 0, 0⟩, ⟨2025, 12, 31, 23, 59⟩⟩ ⟨2025, 7, 2, 12, 0⟩
      ≤ 1000000 :=
  progress_monotone_bounded ⟨⟨2025, 1, 1, 0, 0⟩, ⟨2025, 12, 31, 23, 59⟩⟩
    ⟨2025, 7, 2, 12, 0⟩ ⟨2025, 9, 1, 0, 0⟩ (by decide) (by decide) (by decide) (by decide)

/-- C1 as stated is false on the code: with start = end, a current time
at or before the common instant takes the `current <= start` branch and
yields 0, not 1,000,000. -/
theorem progress_equal_range_counterexample :
    datetimeToMinutes (⟨2025, 6, 1, 12, 0⟩ : ProgressDatetime)
      = datetimeToMinutes (⟨2025, 6, 1, 12, 0⟩ : ProgressDatetime)
    ∧ percentageX10000 ⟨⟨2025, 6, 1, 12, 0⟩, ⟨2025, 6, 1, 12, 0⟩⟩ ⟨2025, 1, 1, 0, 0⟩
        ≠ 1000000 := by
  constructor
  · rfl
  · decide

/-- C1 amended: when the stored range has end equal to start (equal
linear minutes), `percentage_x10000` is 0 if the current time is at or
before that instant and 1,000,000 if it is after it. -/
theorem progress_equal_range (dates : ProgressDates) (now : ProgressDatetime)
    (h : datetimeToMinutes dates.start_datetime = datetimeToMinutes dates.end_datetime) :
    percentageX10000 dates now
      = if datetimeToMinutes now ≤ datetimeToMinutes dates.start_datetime then 0
        else 1000000 := by
  unfold percentageX10000
  dsimp only
  by_cases h1 : datetimeToMinutes now ≤ datetimeToMinutes dates.start_datetime
  · rw [if_pos h1, if_pos h1]
  · rw [if_neg h1, if_neg h1, if_pos (by omega)]

theorem progress_equal_range_witness :
    percentageX10000 ⟨⟨2025, 6, 1, 12, 0⟩, ⟨2025, 6, 1, 12, 0⟩⟩ ⟨2025, 7, 1, 0, 0⟩
      = 1000000 := by
  rw [progress_equal_range ⟨⟨2025, 6, 1, 12, 0⟩, ⟨2025, 6, 1, 12, 0⟩⟩ ⟨2025, 7, 1, 0, 0⟩
    (by decide)]
  decide

/-- C10: whenever the interior branch of the progress computation is
reached (start < now < end in linear minutes), the duration end - start
is strictly positive, the division is performed, and the zero-duration
fallback inside the interior case is not taken. -/
theorem progress_interior_division (dates : ProgressDates) (now : ProgressDatetime)
    (h1 : datetimeToMinutes dates.start_datetime < datetimeToMinutes now)
    (h2 : datetimeToMinutes now < datetimeToMinutes dates.end_datetime) :
    0 < datetimeToMinutes dates.end_datetime - datetimeToMinutes dates.start_datetime
    ∧ percentageX10000 dates now
      = (datetimeToMinutes now - datetimeToMinutes dates.start_datetime) * 1000000 % 2 ^ 64
        / (datetimeToMinutes dates.end_datetime - datetimeToMinutes dates.start_datetime) := by
  constructor
  · omega
  · unfold percentageX10000
    dsimp only
    rw [if_neg (by omega), if_neg (by omega), if_pos (by omega)]

theorem progress_interior_division_witness :
    0 < datetimeToMinutes (⟨2025, 12, 31, 23, 59⟩ : ProgressDatetime)
        - datetimeToMinutes (⟨2025, 1, 1, 0, 0⟩ : ProgressDatetime)
    ∧ percentageX10000 ⟨⟨2025, 1, 1, 0, 0⟩, ⟨2025, 12, 31, 23, 59⟩⟩ ⟨2025, 7, 2, 12, 0⟩
      = (datetimeToMinutes (⟨2025, 7, 2, 12, 0⟩ : ProgressDatetime)
          - datetimeToMinutes (⟨2025, 1, 1, 0, 0⟩ : ProgressDatetime)) * 1000000 % 2 ^ 64
        / (datetimeToMinutes (⟨2025, 12, 31, 23, 59⟩ : ProgressDatetime)
          - datetimeToMinutes (⟨2025, 1, 1, 0, 0⟩ : ProgressDatetime)) :=
  progress_interior_division ⟨⟨2025, 1, 1, 0, 0⟩, ⟨2025, 12, 31, 23, 59⟩⟩
    ⟨2025, 7, 2, 12, 0⟩ (by decide) (by decide)

/-- Embeds `_progress_face_validate_end_datetime` (progress_face.c lines
53-59): if end is before start, set end = start and mark the dates
changed. -/
def validateEndDatetime (s : ProgressState) : ProgressState :=
  if datetimeCompare s.dates.start_datetime s.dates.end_datetime < 0 then
    { s with dates := { s.dates with end_datetime := s.dates.start_datetime },
             dates_changed := true }
  else s

/-- The switch of `_progress_face_increment_current` (progress_face.c
lines 77-98) acting on the active datetime; `currentYear` is the host's
`now.unit.year + WATCH_RTC_REFERENCE_YEAR`.  Each assignment into a
bit-field truncates to the field's width; `current_year - 100` is
computed in `int` and then truncated into the 12-bit year field. -/
def incrementActiveDatetime (currentYear subpage : Nat) (active : ProgressDatetime) :
    ProgressDatetime :=
  if subpage = PROGRESS_SUBPAGE_YEAR then
    let y1 := (active.year + 1) % 4096
    if currentYear + 100 < y1 then
      { active with year := (((currentYear : Int) - 100) % 4096).toNat }
    else
      { active with year := y1 }
  else if subpage = PROGRESS_SUBPAGE_MONTH then
    { active with month := (active.month % 12 + 1) % 16 }
  else if subpage = PROGRESS_SUBPAGE_DAY then
    { active with day := (active.day % daysInMonth active.month active.year + 1) % 32 }
  else if subpage = PROGRESS_SUBPAGE_HOUR then
    { active with hour := (active.hour + 1) % 24 % 32 }
  else if subpage = PROGRESS_SUBPAGE_MINUTE then
    { active with minute := (active.minute + 1) % 60 % 64 }
  else active

/-- Embeds `_progress_face_increment_current` (progress_face.c lines 71-104):
pick the active datetime per `_progress_face_get_active_datetime`, set
`dates_changed`, apply the field increment, and re-validate when editing
the end date. -/
def incrementCurrent (currentYear : Nat) (s : ProgressState) : ProgressState :=
  let active := if s.current_page = PROGRESS_PAGE_START then s.dates.start_datetime
                else s.dates.end_datetime
  let active' := incrementActiveDatetime currentYear s.current_subpage active
  let s1 :=
    { s with dates_changed := true,
             dates := if s.current_page = PROGRESS_PAGE_START then
                        { s.dates with start_datetime := active' }
                      else
                        { s.dates with end_datetime := active' } }
  if s1.current_page = PROGRESS_PAGE_END then validateEndDatetime s1 else s1

theorem incrementActiveDatetime_inBits (cy sp : Nat) (dt : ProgressDatetime)
    (h : InBits dt) : InBits (incrementActiveDatetime cy sp dt) := by
  obtain ⟨h1, h2, h3, h4, h5⟩ := h
  unfold incrementActiveDatetime
  have hy : ((((cy : Int) - 100) % 4096).toNat) < 4096 := by omega
  split
  · dsimp only
    split
    · exact ⟨by dsimp only; omega, h2, h3, h4, h5⟩
    · exact ⟨by dsimp only; omega, h2, h3, h4, h5⟩
  · split
    · exact ⟨h1, by dsimp only; omega, h3, h4, h5⟩
    · split
      · exact ⟨h1, h2, by dsimp only; omega, h4, h5⟩
      · split
        · exact ⟨h1, h2, h3, by dsimp only; omega, h5⟩
        · split
          · exact ⟨h1, h2, h3, h4, by dsimp only; omega⟩
          · exact ⟨h1, h2, h3, h4, h5⟩

theorem validateEndDatetime_post (s : ProgressState)
    (hs : InBits s.dates.start_datetime) (he : InBits s.dates.end_datetime) :
    datetimeToMinutes (validateEndDatetime s).dates.start_datetime
      ≤ datetimeToMinutes (validateEndDatetime s).dates.end_datetime := by
  have hsB := datetimeToMinutes_lt _ hs
  have heB := datetimeToMinutes_lt _ he
  unfold validateEndDatetime datetimeCompare
  rw [toInt64_of_lt _ (by omega), toInt64_of_lt _ (by omega)]
  by_cases h : (datetimeToMinutes s.dates.end_datetime : Int)
      - (datetimeToMinutes s.dates.start_datetime : Int) < 0
  · rw [if_pos h]
  · rw [if_neg h]
    omega

theorem validateEndDatetime_dates_changed (s : ProgressState)
    (h : s.dates_changed = true) : (validateEndDatetime s).dates_changed = true := by
  unfold validateEndDatetime
  split
  · rfl
  · exact h

/-- C4 as stated is false on the code: a field edit applied on the
EditStart page is not followed by the end-≥-start validation (the code
only validates when `current_page == PROGRESS_PAGE_END`), so incrementing
the start year past an equal end date leaves end before start. -/
theorem increment_start_page_counterexample :
    datetimeCompare
        (incrementCurrent 2025
          { current_page := PROGRESS_PAGE_START, current_subpage := PROGRESS_SUBPAGE_YEAR,
            face_index := 0, dates := ⟨⟨2025, 1, 1, 0, 0⟩, ⟨2025, 1, 1, 0, 0⟩⟩,
            dates_changed := false, quick_cycle := false }).dates.start_datetime
        (incrementCurrent 2025
          { current_page := PROGRESS_PAGE_START, current_subpage := PROGRESS_SUBPAGE_YEAR,
            face_index := 0, dates := ⟨⟨2025, 1, 1, 0, 0⟩, ⟨2025, 1, 1, 0, 0⟩⟩,
            dates_changed := false, quick_cycle := false }).dates.end_datetime < 0
    ∧ datetimeToMinutes
        (incrementCurrent 2025
          { current_page := PROGRESS_PAGE_START, current_subpage := PROGRESS_SUBPAGE_YEAR,
            face_index := 0, dates := ⟨⟨2025, 1, 1, 0, 0⟩, ⟨2025, 1, 1, 0, 0⟩⟩,
            dates_changed := false, quick_cycle := false }).dates.end_datetime
      < datetimeToMinutes
        (incrementCurrent 2025
          { current_page := PROGRESS_PAGE_START, current_subpage := PROGRESS_SUBPAGE_YEAR,
            face_index := 0, dates := ⟨⟨2025, 1, 1, 0, 0⟩, ⟨2025, 1, 1, 0, 0⟩⟩,
            dates_changed := false, quick_cycle := false }).dates.start_datetime := by
  decide

/-- C4 amended: after every single field edit applied on the EditEnd
page, the state satisfies end ≥ start under linear-time comparison (a
violation is corrected by setting end := start, not by rejecting the
edit), and the edit is recorded in `dates_changed`; edits on the
EditStart page are only re-validated at the EditStart→EditEnd page
transition. -/
theorem increment_end_page_invariant (cy : Nat) (s : ProgressState)
    (hs : InBits s.dates.start_datetime) (he : InBits s.dates.end_datetime)
    (hp : s.current_page = PROGRESS_PAGE_END) :
    datetimeToMinutes (incrementCurrent cy s).dates.start_datetime
      ≤ datetimeToMinutes (incrementCurrent cy s).dates.end_datetime
    ∧ (incrementCurrent cy s).dates_changed = true := by
  unfold incrementCurrent
  rw [hp]
  rw [if_neg (by decide : ¬(PROGRESS_PAGE_END = PROGRESS_PAGE_START))]
  dsimp only
  rw [if_pos rfl]
  constructor
  · exact validateEndDatetime_post _ hs
      (incrementActiveDatetime_inBits cy s.current_subpage _ he)
  · exact validateEndDatetime_dates_changed _ rfl

theorem increment_end_page_invariant_witness :
    datetimeToMinutes (incrementCurrent 2025
        { current_page := PROGRESS_PAGE_END, current_subpage := PROGRESS_SUBPAGE_MONTH,
          face_index := 0, dates := ⟨⟨2025, 12, 1, 0, 0⟩, ⟨2025, 12, 1, 0, 0⟩⟩,
          dates_changed := false, quick_cycle := false }).dates.start_datetime
      ≤ datetimeToMinutes (incrementCurrent 2025
        { current_page := PROGRESS_PAGE_END, current_subpage := PROGRESS_SUBPAGE_MONTH,
          face_index := 0, dates := ⟨⟨2025, 12, 1, 0, 0⟩, ⟨2025, 12, 1, 0, 0⟩⟩,
          dates_changed := false, quick_cycle := false }).dates.end_datetime
    ∧ (incrementCurrent 2025
        { current_page := PROGRESS_PAGE_END, current_subpage := PROGRESS_SUBPAGE_MONTH,
          face_index := 0, dates := ⟨⟨2025, 12, 1, 0, 0⟩, ⟨2025, 12, 1, 0, 0⟩⟩,
          dates_changed := false, quick_cycle := false }).dates_changed = true :=
  increment_end_page_invariant 2025
    { current_page := PROGRESS_PAGE_END, current_subpage := PROGRESS_SUBPAGE_MONTH,
      face_index := 0, dates := ⟨⟨2025, 12, 1, 0, 0⟩, ⟨2025, 12, 1, 0, 0⟩⟩,
      dates_changed := false, quick_cycle := false } (by decide) (by decide) rfl

/-- C8 as stated is false on the code: with the stored year at the
bit-field maximum 4095, the increment wraps in the 12-bit field to 0
before the bound check, 0 does not exceed currentYear + 100, and the
resulting year is 0 — not (currentYear - 100) as the claim's rollover
rule requires (with currentYear = 2025 that would be 1925). -/
theorem increment_year_counterexample :
    (incrementCurrent 2025
        { current_page := PROGRESS_PAGE_START, current_subpage := PROGRESS_SUBPAGE_YEAR,
          face_index := 0, dates := ⟨⟨4095, 1, 1, 0, 0⟩, ⟨4095, 1, 1, 0, 0⟩⟩,
          dates_changed := false, quick_cycle := false }).dates.start_datetime.year = 0
    ∧ (incrementCurrent 2025
        { current_page := PROGRESS_PAGE_START, current_subpage := PROGRESS_SUBPAGE_YEAR,
          face_index := 0, dates := ⟨⟨4095, 1, 1, 0, 0⟩, ⟨4095, 1, 1, 0, 0⟩⟩,
          dates_changed := false, quick_cycle := false }).dates.start_datetime.year
      ≠ 2025 - 100 := by
  decide

/-- C8 amended: for a stored year below the 12-bit maximum 4095 and a
host current year in the representable window, a Year field increment on
the EditStart page adds 1, wrapping down to exactly (currentYear - 100)
when the result exceeds (currentYear + 100), and sets `dates_changed`
(on the EditEnd page the same field update applies but the subsequent
end-≥-start enforcement may additionally overwrite the end date). -/
theorem increment_year_start (cy : Nat) (s : ProgressState)
    (hp : s.current_page = PROGRESS_PAGE_START)
    (hsub : s.current_subpage = PROGRESS_SUBPAGE_YEAR)
    (hy : s.dates.start_datetime.year < 4095)
    (hcy1 : 100 ≤ cy) (hcy2 : cy ≤ 4195) :
    (incrementCurrent cy s).dates.start_datetime.year
      = (if cy + 100 < s.dates.start_datetime.year + 1 then cy - 100
         else s.dates.start_datetime.year + 1)
    ∧ (incrementCurrent cy s).dates_changed = true := by
  unfold incrementCurrent incrementActiveDatetime
  rw [hp, hsub]
  dsimp only
  simp only [reduceIte]
  have hmod : (s.dates.start_datetime.year + 1) % 4096 = s.dates.start_datetime.year + 1 :=
    Nat.mod_eq_of_lt (by omega)
  rw [hmod]
  have htn : ((((cy : Int) - 100) % 4096).toNat) = cy - 100 := by omega
  by_cases hb : cy + 100 < s.dates.start_datetime.year + 1
  · rw [if_pos hb, if_pos hb]
    exact ⟨htn, rfl⟩
  · rw [if_neg hb, if_neg hb]
    exact ⟨rfl, rfl⟩

theorem increment_year_start_witness :
    (incrementCurrent 2025
        { current_page := PROGRESS_PAGE_START, current_subpage := PROGRESS_SUBPAGE_YEAR,
          face_index := 0, dates := ⟨⟨2125, 1, 1, 0, 0⟩, ⟨2125, 1, 1, 0, 0⟩⟩,
          dates_changed := false, quick_cycle := false }).dates.start_datetime.year
      = (if 2025 + 100 < 2125 + 1 then 2025 - 100 else 2125 + 1)
    ∧ (incrementCurrent 2025
        { current_page := PROGRESS_PAGE_START, current_subpage := PROGRESS_SUBPAGE_YEAR,
          face_index := 0, dates := ⟨⟨2125, 1, 1, 0, 0⟩, ⟨2125, 1, 1, 0, 0⟩⟩,
          dates_changed := false, quick_cycle := false }).dates_changed = true :=
  increment_year_start 2025
    { current_page := PROGRESS_PAGE_START, current_subpage := PROGRESS_SUBPAGE_YEAR,
      face_index := 0, dates := ⟨⟨2125, 1, 1, 0, 0⟩, ⟨2125, 1, 1, 0, 0⟩⟩,
      dates_changed := false, quick_cycle := false } rfl rfl (by decide) (by decide) (by decide)

/-- The packed 32-bit register of a `progress_datetime_t` (the union's
`reg` view: year:12, month:4, day:5, hour:5, minute:6). -/
def datetimeReg (dt : ProgressDatetime) : Nat :=
  dt.year % 4096 + 4096 * (dt.month % 16) + 65536 * (dt.day % 32)
    + 2097152 * (dt.hour % 32) + 67108864 * (dt.minute % 64)

/-- The `memcmp` of two `progress_dates_t` records: byte equality of the
two packed registers. -/
def datesBytesEq (d1 d2 : ProgressDates) : Bool :=
  datetimeReg d1.start_datetime == datetimeReg d2.start_datetime
    && datetimeReg d1.end_datetime == datetimeReg d2.end_datetime

theorem datesBytesEq_refl (d : ProgressDates) : datesBytesEq d d = true := by
  simp [datesBytesEq]

/-- Result of one `_progress_face_persist_dates` call: the updated state,
the updated content of this instance's store slot, and whether
`filesystem_write_file` was invoked. -/
structure PersistResult where
  state : ProgressState
  fs : Option ProgressDates
  wrote : Bool

/-- Embeds `_progress_face_persist_dates` (progress_face.c lines 250-268).  The
external byte-store (spec section 6: `fileExists` / `readFile` /
`writeFile` keyed by the instance's deterministic file name) is modelled
as the optional record stored under that name, a read of a present
record succeeding.  The function reads back the stored record, compares
byte-exactly, writes only when different or absent, and always clears
`dates_changed`. -/
def persistDates (fs : Option ProgressDates) (s : ProgressState) : PersistResult :=
  let needs_write : Bool :=
    match fs with
    | some old_dates => !datesBytesEq old_dates s.dates
    | none => true
  if needs_write then
    { state := { s with dates_changed := false }, fs := some s.dates, wrote := true }
  else
    { state := { s with dates_changed := false }, fs := fs, wrote := false }

/-- C6 as stated is false on the code in its "exactly one write" part:
when the stored record already equals the in-memory range, the first
persist also skips the write, so two consecutive persists perform zero
writes, not one. -/
theorem persist_twice_counterexample :
    (persistDates (some ⟨⟨2025, 1, 1, 0, 0⟩, ⟨2025, 12, 31, 23, 59⟩⟩)
        { current_page := PROGRESS_PAGE_DISPLAY, current_subpage := PROGRESS_SUBPAGE_YEAR,
          face_index := 0, dates := ⟨⟨2025, 1, 1, 0, 0⟩, ⟨2025, 12, 31, 23, 59⟩⟩,
          dates_changed := true, quick_cycle := false }).wrote = false
    ∧ (persistDates
        (persistDates (some ⟨⟨2025, 1, 1, 0, 0⟩, ⟨2025, 12, 31, 23, 59⟩⟩)
          { current_page := PROGRESS_PAGE_DISPLAY, current_subpage := PROGRESS_SUBPAGE_YEAR,
            face_index := 0, dates := ⟨⟨2025, 1, 1, 0, 0⟩, ⟨2025, 12, 31, 23, 59⟩⟩,
            dates_changed := true, quick_cycle := false }).fs
        (persistDates (some ⟨⟨2025, 1, 1, 0, 0⟩, ⟨2025, 12, 31, 23, 59⟩⟩)
          { current_page := PROGRESS_PAGE_DISPLAY, current_subpage := PROGRESS_SUBPAGE_YEAR,
            face_index := 0, dates := ⟨⟨2025, 1, 1, 0, 0⟩, ⟨2025, 12, 31, 23, 59⟩⟩,
            dates_changed := true, quick_cycle := false }).state).wrote = false := by
  decide

/-- C6 amended: persist reads back the stored record, byte-compares it
against the in-memory range, writes exactly when the record is absent or
differs, and always clears `dates_changed`; consequently the second of
two persist calls with no intervening edit never writes (so two calls
perform at most one write — exactly one only when the first wrote). -/
theorem persist_properties (fs : Option ProgressDates) (s : ProgressState) :
    (persistDates fs s).state.dates_changed = false
    ∧ ((persistDates fs s).wrote = false
        ↔ ∃ old, fs = some old ∧ datesBytesEq old s.dates = true)
    ∧ (persistDates (persistDates fs s).fs (persistDates fs s).state).wrote = false := by
  rcases fs with _ | old
  · refine ⟨rfl, ⟨?_, ?_⟩, ?_⟩
    · intro h
      simp [persistDates] at h
    · rintro ⟨old, h, _⟩
      cases h
    · simp [persistDates, datesBytesEq_refl]
  · by_cases hb : datesBytesEq old s.dates = true
    · refine ⟨?_, ⟨?_, ?_⟩, ?_⟩ <;>
        simp [persistDates, hb]
    · have hb' : datesBytesEq old s.dates = false := by
        cases h : datesBytesEq old s.dates
        · rfl
        · exact absurd h hb
      refine ⟨?_, ⟨?_, ?_⟩, ?_⟩ <;>
        simp [persistDates, hb', datesBytesEq_refl]

theorem persist_properties_witness :
    (persistDates none
        { current_page := PROGRESS_PAGE_DISPLAY, current_subpage := PROGRESS_SUBPAGE_YEAR,
          face_index := 0, dates := ⟨⟨2025, 1, 1, 0, 0⟩, ⟨2025, 12, 31, 23, 59⟩⟩,
          dates_changed := true, quick_cycle := false }).state.dates_changed = false
    ∧ (persistDates
        (persistDates none
          { current_page := PROGRESS_PAGE_DISPLAY, current_subpage := PROGRESS_SUBPAGE_YEAR,
            face_index := 0, dates := ⟨⟨2025, 1, 1, 0, 0⟩, ⟨2025, 12, 31, 23, 59⟩⟩,
            dates_changed := true, quick_cycle := false }).fs
        (persistDates none
          { current_page := PROGRESS_PAGE_DISPLAY, current_subpage := PROGRESS_SUBPAGE_YEAR,
            face_index := 0, dates := ⟨⟨2025, 1, 1, 0, 0⟩, ⟨2025, 12, 31, 23, 59⟩⟩,
            dates_changed := true, quick_cycle := false }).state).wrote = false :=
  ⟨(persist_properties none
      { current_page := PROGRESS_PAGE_DISPLAY, current_subpage := PROGRESS_SUBPAGE_YEAR,
        face_index := 0, dates := ⟨⟨2025, 1, 1, 0, 0⟩, ⟨2025, 12, 31, 23, 59⟩⟩,
        dates_changed := true, quick_cycle := false }).1,
    (persist_properties none
      { current_page := PROGRESS_PAGE_DISPLAY, current_subpage := PROGRESS_SUBPAGE_YEAR,
        face_index := 0, dates := ⟨⟨2025, 1, 1, 0, 0⟩, ⟨2025, 12, 31, 23, 59⟩⟩,
        dates_changed := true, quick_cycle := false }).2.2⟩

/-- Embeds `_progress_face_load_dates` (progress_face.c lines 217-247): yields
the loaded (or default) dates and whether a stored record was found.
The external filesystem is the per-instance optional stored record
(reading a present record succeeds); a miss synthesizes start =
(current year, Jan 1, 00:00) and end = (current year, Dec 31, 23:59),
the year assignments truncating into the 12-bit field. -/
def loadDates (currentYear : Nat) (fs : Option ProgressDates) : ProgressDates × Bool :=
  match fs with
  | some dates => (dates, true)
  | none =>
    ({ start_datetime := { year := currentYear % 4096, month := 1, day := 1,
                           hour := 0, minute := 0 },
       end_datetime := { year := currentYear % 4096, month := 12, day := 31,
                         hour := 23, minute := 59 } },
     false)

/-- Embeds `progress_face_setup` (progress_face.c lines 278-302) on a fresh
context: zeroed state, the next instance index, loaded dates, and the
opening page — EditStart at subpage Year when no stored record was
found, Display otherwise; `dates_changed` and `quick_cycle` cleared. -/
def progressFaceSetup (faceIndex currentYear : Nat) (fs : Option ProgressDates) :
    ProgressState :=
  let load := loadDates currentYear fs
  let dates_initialized := load.2
  if dates_initialized = false then
    { current_page := PROGRESS_PAGE_START, current_subpage := PROGRESS_SUBPAGE_YEAR,
      face_index := faceIndex, dates := load.1, dates_changed := false, quick_cycle := false }
  else
    { current_page := PROGRESS_PAGE_DISPLAY, current_subpage := PROGRESS_SUBPAGE_YEAR,
      face_index := faceIndex, dates := load.1, dates_changed := false, quick_cycle := false }

/-- C9: on initialization with no stored record the module synthesizes
the default range (current year Jan 1 00:00 .. current year Dec 31
23:59) and opens into EditStart at subpage Year; with a stored record it
loads it and opens into Display. -/
theorem setup_opening_state (faceIndex currentYear : Nat) (fs : Option ProgressDates)
    (hcy : currentYear < 4096) :
    (fs = none →
      progressFaceSetup faceIndex currentYear fs
        = { current_page := PROGRESS_PAGE_START, current_subpage := PROGRESS_SUBPAGE_YEAR,
            face_index := faceIndex,
            dates := ⟨⟨currentYear, 1, 1, 0, 0⟩, ⟨currentYear, 12, 31, 23, 59⟩⟩,
            dates_changed := false, quick_cycle := false })
    ∧ (∀ d, fs = some d →
        progressFaceSetup faceIndex currentYear fs
          = { current_page := PROGRESS_PAGE_DISPLAY, current_subpage := PROGRESS_SUBPAGE_YEAR,
              face_index := faceIndex, dates := d,
              dates_changed := false, quick_cycle := false }) := by
  constructor
  · rintro rfl
    unfold progressFaceSetup loadDates
    dsimp only
    rw [Nat.mod_eq_of_lt hcy, if_pos rfl]
  · rintro d rfl
    rfl

theorem setup_opening_state_witness :
    progressFaceSetup 0 2025 none
      = { current_page := PROGRESS_PAGE_START, current_subpage := PROGRESS_SUBPAGE_YEAR,
          face_index := 0,
          dates := ⟨⟨2025, 1, 1, 0, 0⟩, ⟨2025, 12, 31, 23, 59⟩⟩,
          dates_changed := false, quick_cycle := false }
    ∧ progressFaceSetup 0 2025 (some ⟨⟨2024, 3, 4, 5, 6⟩, ⟨2026, 7, 8, 9, 10⟩⟩)
      = { current_page := PROGRESS_PAGE_DISPLAY, current_subpage := PROGRESS_SUBPAGE_YEAR,
          face_index := 0,
          dates := ⟨⟨2024, 3, 4, 5, 6⟩, ⟨2026, 7, 8, 9, 10⟩⟩,
          dates_changed := false, quick_cycle := false } :=
  ⟨(setup_opening_state 0 2025 none (by decide)).1 rfl,
    (setup_opening_state 0 2025 (some ⟨⟨2024, 3, 4, 5, 6⟩, ⟨2026, 7, 8, 9, 10⟩⟩)
      (by decide)).2 _ rfl⟩

/-- Embeds `_progress_face_abort_quick_cycle` (progress_face.c lines 271-276):
clears `quick_cycle` and requests the 4 Hz edit-mode tick frequency, but
only if quick-cycle was active.  Returns the new state and the frequency
request, if one was made. -/
def abortQuickCycle (s : ProgressState) : ProgressState × Option Nat :=
  if s.quick_cycle then ({ s with quick_cycle := false }, some 4)
  else (s, none)

/-- The movement event kinds `progress_face_loop` dispatches on; kinds it
leaves to `movement_default_loop_handler` are collapsed into
`EVENT_OTHER`. -/
inductive MovementEventType where
  | EVENT_ACTIVATE
  | EVENT_LOW_ENERGY_UPDATE
  | EVENT_TICK
  | EVENT_LIGHT_BUTTON_DOWN
  | EVENT_LIGHT_BUTTON_UP
  | EVENT_ALARM_BUTTON_UP
  | EVENT_ALARM_LONG_PRESS
  | EVENT_ALARM_LONG_UP
  | EVENT_TIMEOUT
  | EVENT_OTHER
deriving DecidableEq, Repr

/-- Outcome of one `progress_face_loop` call: the new state, the store
slot (written through `_progress_face_persist_dates` on the
EditEnd→Display transition), and the argument of the last
`movement_request_tick_frequency` call, if any was made. -/
structure LoopResult where
  state : ProgressState
  fs : Option ProgressDates
  freq : Option Nat
deriving Repr

/-- Embeds `progress_face_loop` (progress_face.c lines 315-464), restricted to
its state, persistence and tick-frequency effects (display output, the
LED and the sleep animation are cosmetic and not modelled).
`currentYear` stands for the host clock's year as in
`_progress_face_increment_current`; `alarmHeld` for
`HAL_GPIO_BTN_ALARM_read()`. -/
def progressFaceLoop (currentYear : Nat) (alarmHeld : Bool) (fs : Option ProgressDates)
    (event : MovementEventType) (s : ProgressState) : LoopResult :=
  match event with
  | .EVENT_ACTIVATE => { state := s, fs := fs, freq := none }
  | .EVENT_LOW_ENERGY_UPDATE | .EVENT_TICK =>
    if s.quick_cycle then
      if alarmHeld then
        { state := incrementCurrent currentYear s, fs := fs, freq := none }
      else
        let a := abortQuickCycle s
        { state := a.1, fs := fs, freq := a.2 }
    else
      { state := s, fs := fs, freq := none }
  | .EVENT_LIGHT_BUTTON_DOWN => { state := s, fs := fs, freq := none }
  | .EVENT_LIGHT_BUTTON_UP =>
    match s.current_page with
    | PROGRESS_PAGE_START | PROGRESS_PAGE_END =>
      let s1 := { s with current_subpage := (s.current_subpage + 1) % 5 }
      if s1.current_subpage = PROGRESS_SUBPAGE_YEAR then
        if s1.current_page = PROGRESS_PAGE_START then
          { state := validateEndDatetime { s1 with current_page := PROGRESS_PAGE_END },
            fs := fs, freq := none }
        else
          let p := persistDates fs { s1 with current_page := PROGRESS_PAGE_DISPLAY }
          { state := p.state, fs := p.fs, freq := some 1 }
      else
        { state := s1, fs := fs, freq := none }
    | PROGRESS_PAGE_DISPLAY => { state := s, fs := fs, freq := none }
  | .EVENT_ALARM_BUTTON_UP =>
    match s.current_page with
    | PROGRESS_PAGE_START | PROGRESS_PAGE_END =>
      let a := abortQuickCycle s
      { state := incrementCurrent currentYear a.1, fs := fs, freq := a.2 }
    | PROGRESS_PAGE_DISPLAY => { state := s, fs := fs, freq := none }
  | .EVENT_ALARM_LONG_PRESS =>
    match s.current_page with
    | PROGRESS_PAGE_DISPLAY =>
      let s1 := { s with current_page := PROGRESS_PAGE_START,
                         current_subpage := PROGRESS_SUBPAGE_YEAR }
      { state := s1, fs := fs, freq := some 4 }
    | PROGRESS_PAGE_START | PROGRESS_PAGE_END =>
      { state := { s with quick_cycle := true }, fs := fs, freq := some 8 }
  | .EVENT_ALARM_LONG_UP =>
    let a := abortQuickCycle s
    { state := a.1, fs := fs, freq := a.2 }
  | .EVENT_TIMEOUT =>
    let a := abortQuickCycle s
    { state := a.1, fs := fs, freq := a.2 }
  | .EVENT_OTHER => { state := s, fs := fs, freq := none }

/-- C7: releasing the primary input (EVENT_ALARM_LONG_UP) and the idle
timeout do clear `quick_cycle`, but a page change does not: the
EditEnd→Display transition taken by EVENT_LIGHT_BUTTON_UP at the last
subpage leaves `quick_cycle` true (and restores the 1 Hz display rate
while quick-cycle is still set), so with the alarm button still held the
following ticks keep incrementing the end date in display mode.
Evaluating the handler at such a state exhibits the bug. -/
theorem quick_cycle_survives_page_change :
    (progressFaceLoop 2025 true (some ⟨⟨2025, 1, 1, 0, 0⟩, ⟨2025, 12, 31, 23, 59⟩⟩)
        MovementEventType.EVENT_LIGHT_BUTTON_UP
        { current_page := PROGRESS_PAGE_END, current_subpage := PROGRESS_SUBPAGE_MINUTE,
          face_index := 0, dates := ⟨⟨2025, 1, 1, 0, 0⟩, ⟨2025, 12, 31, 23, 59⟩⟩,
          dates_changed := true, quick_cycle := true }).state.current_page
      = PROGRESS_PAGE_DISPLAY
    ∧ (progressFaceLoop 2025 true (some ⟨⟨2025, 1, 1, 0, 0⟩, ⟨2025, 12, 31, 23, 59⟩⟩)
        MovementEventType.EVENT_LIGHT_BUTTON_UP
        { current_page := PROGRESS_PAGE_END, current_subpage := PROGRESS_SUBPAGE_MINUTE,
          face_index := 0, dates := ⟨⟨2025, 1, 1, 0, 0⟩, ⟨2025, 12, 31, 23, 59⟩⟩,
          dates_changed := true, quick_cycle := true }).state.quick_cycle = true := by
  decide
